import Mathlib

/-!
Verification development for the comsdk graph-based workflow engine
(src/comsdk/graph.py, edge.py, parser.py, misc.py).

The Python code is shallowly embedded: the mutable data record becomes an
association list of string keys to values, mutation becomes explicit state
passing, and Python exceptions become an explicit `Exc` error type threaded
through `Except`.  Recursive traversals (the idle initialization pass, the
run loop, the parallelization-policy worklist) take an explicit fuel
argument; fuel exhaustion is a distinguished error that faithful callers
avoid by supplying enough fuel.
-/

namespace Comsdk

/-- Values stored in the shared data record (Python objects as used by the
engine: ints, strings, booleans, lists, nested dicts, and None). -/
inductive Val where
  | int (n : Int)
  | str (s : String)
  | bool (b : Bool)
  | null
  | arr (l : List Val)
  | dict (d : List (String × Val))

/-- The shared data record: a Python dict with string keys (top level). -/
abbrev Dict := List (String × Val)

/-- Python dict lookup `d[k]` at one level (first binding wins). -/
def assocGet (d : Dict) (k : String) : Option Val :=
  match d with
  | [] => none
  | (k0, v) :: rest => if k0 == k then some v else assocGet rest k

/-- Python dict assignment `d[k] = v` at one level: replaces the existing
binding in place, otherwise appends. -/
def assocSet (d : Dict) (k : String) (v : Val) : Dict :=
  match d with
  | [] => [(k, v)]
  | (k0, w) :: rest => if k0 == k then (k0, v) :: rest else (k0, w) :: assocSet rest k v

/-- Python `k in d` at one level. -/
def assocContains (d : Dict) (k : String) : Bool :=
  match d with
  | [] => false
  | (k0, _) :: rest => k0 == k || assocContains rest k

/-- A key specification as accepted by `recursive_get`/`recursive_set` in
misc.py: a plain key, a key path (a sequence of keys leading into nested
dicts), or an `ArrayItemGetter` (a key path to an array plus an index). -/
inductive KeyPath where
  | single (k : String)
  | path (p : List String)
  | arrayItem (p : List String) (i : Nat)

/-- The fold body of `recursive_get` for a key path: Python does
`reduce(lambda d_, key_: d_.get(key_, {}), keys, d)`, i.e. each step looks
the key up in the current dict and falls back to an empty dict; stepping
into a non-dict value is a Python `AttributeError`, modelled as `none`. -/
def recursiveGetVal : Val → List String → Option Val
  | v, [] => some v
  | Val.dict d, k :: rest =>
      recursiveGetVal (match assocGet d k with | some w => w | none => Val.dict []) rest
  | _, _ :: _ => none

/-- `recursive_get` over a key path starting from the top-level record. -/
def recursiveGetPath (d : Dict) (p : List String) : Option Val :=
  recursiveGetVal (Val.dict d) p

/-- `recursive_get(d, keys)` from misc.py.  A plain key is a direct lookup
(raising `KeyError`, i.e. `none`, when absent); an `ArrayItemGetter` fetches
the array under its key path and indexes into it. -/
def recursiveGet (d : Dict) (keys : KeyPath) : Option Val :=
  match keys with
  | .single k => assocGet d k
  | .path p => recursiveGetPath d p
  | .arrayItem p i =>
      match recursiveGetPath d p with
      | some (Val.arr l) => l.get? i
      | _ => none

/-- `recursive_set` over a key path: Python walks `keys[:-1]` with
`setdefault(key, {})` (creating empty nested dicts as needed) and assigns
at the last key.  Walking into an existing non-dict value raises
(`AttributeError`), modelled as `none`; an empty path raises `IndexError`. -/
def recursiveSetPath : Dict → List String → Val → Option Dict
  | _, [], _ => none
  | d, [k], v => some (assocSet d k v)
  | d, k :: k1 :: rest, v =>
      match assocGet d k with
      | some (Val.dict sub) =>
          (recursiveSetPath sub (k1 :: rest) v).map (fun sub1 => assocSet d k (Val.dict sub1))
      | some _ => none
      | none =>
          (recursiveSetPath [] (k1 :: rest) v).map (fun sub1 => assocSet d k (Val.dict sub1))

/-- `recursive_set(d, keys, val)` from misc.py.  The `ArrayItemGetter` case
mutates the fetched array in place; functionally this is an element update
written back along the (existing) path. -/
def recursiveSet (d : Dict) (keys : KeyPath) (v : Val) : Option Dict :=
  match keys with
  | .single k => some (assocSet d k v)
  | .path p => recursiveSetPath d p v
  | .arrayItem p i =>
      match recursiveGetPath d p with
      | some (Val.arr l) =>
          if i < l.length then recursiveSetPath d p (Val.arr (l.set i v)) else none
      | _ => none

/-- Lookup in a key-path association list (`_keys_mappings` of ProxyDict). -/
def kmGet (m : List (String × KeyPath)) (k : String) : Option KeyPath :=
  match m with
  | [] => none
  | (k0, p) :: rest => if k0 == k then some p else kmGet rest k

/-- Update-or-append on a key-path association list (Python dict update). -/
def kmSet (m : List (String × KeyPath)) (k : String) (p : KeyPath) : List (String × KeyPath) :=
  match m with
  | [] => [(k, p)]
  | (k0, q) :: rest => if k0 == k then (k0, p) :: rest else (k0, q) :: kmSet rest k p

/-- `ProxyDict` from misc.py: a view over an underlying record driven by a
key-to-key-path mapping plus a default relative key for fresh writes. -/
structure ProxyDict where
  data : Dict
  keysMappings : List (String × KeyPath)
  defaultRelativeKey : List String

/-- The inner keys contributed by one relative key: the keys of the subdict
the relative key path leads to (Python iterates `.keys()` of that subdict). -/
def relativeInnerMappings (d : Dict) (relKey : List String) : List (String × KeyPath) :=
  match recursiveGetPath d relKey with
  | some (Val.dict sub) => sub.map (fun kv => (kv.1, KeyPath.path (relKey ++ [kv.1])))
  | _ => []

/-- `ProxyDict.__init__`: the mapping starts with every top-level key mapped
to itself, then each relative key contributes its subdict's keys, then the
explicit `keys_mappings` overwrite (Python `dict.update`). -/
def mkProxyDict (d : Dict) (relativeKeys : List (List String))
    (keysMappings : List (String × KeyPath)) (defaultRelativeKey : List String) : ProxyDict :=
  let base : List (String × KeyPath) := d.map (fun kv => (kv.1, KeyPath.single kv.1))
  let withRel := relativeKeys.foldl
    (fun m rk => (relativeInnerMappings d rk).foldl (fun m2 kv => kmSet m2 kv.1 kv.2) m) base
  let full := keysMappings.foldl (fun m kv => kmSet m kv.1 kv.2) withRel
  ⟨d, full, defaultRelativeKey⟩

/-- `ProxyDict.__contains__`: membership is membership in the mapping. -/
def ProxyDict.contains (pd : ProxyDict) (k : String) : Bool :=
  (kmGet pd.keysMappings k).isSome

/-- `ProxyDict.__getitem__`: redirects the read through the mapped path
(raising `KeyError`, i.e. `none`, for an unmapped key). -/
def ProxyDict.get (pd : ProxyDict) (k : String) : Option Val :=
  match kmGet pd.keysMappings k with
  | some p => recursiveGet pd.data p
  | none => none

/-- `ProxyDict.__setitem__`: a mapped key writes through its path; an
unmapped key writes under `default_relative_key + [key]` and records that
path in the mapping. -/
def ProxyDict.set (pd : ProxyDict) (k : String) (v : Val) : Option ProxyDict :=
  match kmGet pd.keysMappings k with
  | some p => (recursiveSet pd.data p v).map (fun d1 => { pd with data := d1 })
  | none =>
      let newPath := KeyPath.path (pd.defaultRelativeKey ++ [k])
      (recursiveSet pd.data newPath v).map
        (fun d1 => { pd with data := d1, keysMappings := kmSet pd.keysMappings k newPath })

/-- `Graph.init_graph`'s data seeding (graph.py lines 170-172): always set
the current-working-directory key, and seed the working-directory key from
it only when absent. -/
def initGraphData (data : Dict) (cwd : String) : Dict :=
  let d1 := assocSet data "__CURRENT_WORKING_DIR__" (Val.str cwd)
  if assocContains d1 "__WORKING_DIR__" then d1
  else assocSet d1 "__WORKING_DIR__" (Val.str cwd)

/-! ## Runtime graph model (graph.py, edge.py)

States are identified by their name (`State.name` is the dict key used by
the parser's factory as well).  The mutable per-state counters of the
Python `State` object live in a separate `Ctrs` environment so that the
static graph stays immutable, matching the Python lifecycle where only the
bookkeeping counters mutate after compilation.  Python exceptions are the
explicit `Exc` type; `_run_state` catches exactly the
`GraphUnexpectedTermination` constructor. -/

/-- The exceptions the engine can raise.  `gut` is
`GraphUnexpectedTermination`, `keyError` the bare `KeyError()` raised by
`Edge._throw_if_not_set`, `badGraphStructure` the structural error of the
parallelization policy, `commError` a `CommunicationError` from the
communication layer, `exception` any other Python exception (TypeError,
IndexError, StopIteration, generic Exception), and `fuelExhausted` is the
artefact of the fuel embedding (never raised by the Python code). -/
inductive Exc where
  | gut (msg : String)
  | keyError
  | badGraphStructure (msg : String)
  | commError (msg : String)
  | exception (msg : String)
  | fuelExhausted
deriving DecidableEq

/-- `InOutMapping` of edge.py: explicit key mappings, relative keys and the
default relative key, used to build the proxy view an edge works on. -/
structure IOMapping where
  keysMappings : List (String × KeyPath) := []
  relativeKeys : List (List String) := []
  defaultRelativeKey : List String := []

/-- A dynamic keys mapping: local key to `ArrayItemGetter`, as produced by
`build_dynamic_keys_mapping` under implicit parallelization. -/
abbrev DKM := List (String × KeyPath)

/-- An edge: guard, transform, io-mapping, order and mandatory keys.  The
guard and the transform are embedded as functions of the global record (the
local-to-global plumbing their Python bodies see through the proxy view is
folded into the functions themselves); the mandatory-key containment check
of `Edge.morph` is kept explicit and is evaluated against the proxy view's
key set. -/
structure Edge where
  pred : Dict → Bool
  morphf : Dict → Dict
  io : IOMapping := {}
  order : Int := 0
  comment : String := ""
  mandatoryKeys : List String := []

/-- A `Transfer`: an edge plus the destination state's name. -/
structure Transfer where
  edge : Edge
  outputState : String
  order : Int := 0

/-- The dummy selector `Selector(ntransf)`: always-true vector of the given
length (`lambda x: [True for i in range(ntransf)]`). -/
def selectorAllTrue (ntransf : Nat) : Dict → List Bool :=
  fun _ => List.replicate ntransf true

/-- A state: outgoing transfers, selector, optional array-key mapping
(implicit parallelization), terminal flag and optional proxy target
(subgraph substitution). -/
structure State where
  name : String
  transfers : List Transfer := []
  selector : Dict → List Bool := selectorAllTrue 1
  arrayKeysMapping : Option (List (String × List String)) := none
  isTermState : Bool := false
  proxyState : Option String := none
  comment : Option String := none

/-- `State.connect_to`: appends one transfer and replaces the selector with
a fresh dummy selector sized to the new transfer count (`Selector(len(self.transfers))`
evaluated after the append).  The comment is assigned unconditionally (the
guard `comment is not None or comment != ""` is always true). -/
def State.connectTo (s : State) (termState : String) (edge : Edge)
    (comment : Option String := none) : State :=
  { s with comment := comment,
           transfers := s.transfers ++ [{ edge := edge, outputState := termState }],
           selector := selectorAllTrue (s.transfers.length + 1) }

/-- A compiled graph: named states plus the initial state's name. -/
structure Graph where
  states : List (String × State)
  initState : String

/-- State lookup by name in an association list. -/
def lookupStateIn (l : List (String × State)) (sid : String) : Option State :=
  match l with
  | [] => none
  | (k, s) :: rest => if k == sid then some s else lookupStateIn rest sid

/-- State lookup by name. -/
def lookupState (g : Graph) (sid : String) : Option State :=
  lookupStateIn g.states sid

/-- The activation counter of a state: a scalar normally, or one counter
per branch once `_activate_input_edge` has seen implicit parallelization. -/
inductive ActVal where
  | scalar (n : Int)
  | perBranch (l : List Int)
deriving DecidableEq

/-- The mutable bookkeeping of a Python `State` object. -/
structure Counter where
  inputEdgesNumber : Int := 0
  loopedEdgesNumber : Int := 0
  activated : ActVal := .scalar 0
  branchingStatesHistory : Option (List String) := none
deriving DecidableEq

/-- The counters of all states. -/
abbrev Ctrs := String → Counter

/-- Point update of the counter environment. -/
def updateCtr (ctrs : Ctrs) (sid : String) (c : Counter) : Ctrs :=
  fun x => if x == sid then c else ctrs x

/-- Python `set(a).issubset(b)`. -/
def subsetB (a b : List String) : Bool :=
  a.all (fun x => b.contains x)

/-- `State._is_looped_branch`: the recorded history is a subset of the
current history (`set(self._branching_states_history).issubset(branching_states_history)`).
A `None` recorded history would be a Python `TypeError`; the traversal
never calls this with `None` recorded. -/
def isLoopedBranch (recorded : Option (List String)) (cur : List String) : Bool :=
  match recorded with
  | some r => subsetB r cur
  | none => false

/-- `IdleRunType` of graph.py. -/
inductive IdleRunType where
  | init
  | cleanup
deriving DecidableEq

/-- The successor worklist entries of one `idle_run` descent: with a single
transfer the history is passed unchanged, with several transfers each child
gets the history extended by its own name (graph.py lines 238-243). -/
def idleChildren (s : State) (hist : List String) : List (String × List String) :=
  if s.transfers.length == 1 then
    match s.transfers with
    | [t] => [(t.outputState, hist)]
    | _ => []
  else
    s.transfers.map (fun t => (t.outputState, hist ++ [t.outputState]))

/-- `State.idle_run`, rendered as a depth-first worklist over (state,
history) pairs (the Python recursion in DFS order).  INIT increments
`input_edges_number`, and on a revisit increments `looped_edges_number`
exactly when `_is_looped_branch` holds and stops descending; CLEANUP resets
the activation counter to scalar zero and clears looped histories.  The
transfer sorting done at the top of the Python body is applied once to the
whole graph by `sortGraph` (sorting is idempotent and every state executed
at run time has been visited here). -/
def idleRun : Nat → Graph → IdleRunType → List (String × List String) → Ctrs → Ctrs
  | 0, _, _, _, ctrs => ctrs
  | _ + 1, _, _, [], ctrs => ctrs
  | fuel + 1, g, typ, (sid, hist) :: rest, ctrs =>
    match lookupState g sid with
    | none => idleRun fuel g typ rest ctrs
    | some s =>
      match s.proxyState with
      | some pid => idleRun fuel g typ ((pid, hist) :: rest) ctrs
      | none =>
        let c := ctrs sid
        match typ with
        | .init =>
          let c1 := { c with inputEdgesNumber := c.inputEdgesNumber + 1 }
          if c1.inputEdgesNumber == 1 then
            let c2 := if c1.branchingStatesHistory.isNone
                      then { c1 with branchingStatesHistory := some hist } else c1
            idleRun fuel g typ (idleChildren s hist ++ rest) (updateCtr ctrs sid c2)
          else
            let c2 := if isLoopedBranch c1.branchingStatesHistory hist
                      then { c1 with loopedEdgesNumber := c1.loopedEdgesNumber + 1 } else c1
            idleRun fuel g typ rest (updateCtr ctrs sid c2)
        | .cleanup =>
          let c1 := { c with activated := .scalar 0 }
          if c1.branchingStatesHistory.isSome && isLoopedBranch c1.branchingStatesHistory hist then
            idleRun fuel g typ rest
              (updateCtr ctrs sid { c1 with branchingStatesHistory := none })
          else
            let c2 := if c1.branchingStatesHistory.isNone
                      then { c1 with branchingStatesHistory := some hist } else c1
            idleRun fuel g typ (idleChildren s hist ++ rest) (updateCtr ctrs sid c2)

/-- Stable insertion of a transfer into a list sorted by edge order. -/
def insertByOrder (t : Transfer) : List Transfer → List Transfer
  | [] => [t]
  | u :: us => if u.edge.order ≤ t.edge.order then u :: insertByOrder t us else t :: u :: us

/-- The stable sort by `tr.edge.order` performed by `idle_run`
(`self.transfers.sort(key=__sort_by_order)`). -/
def sortByOrder (l : List Transfer) : List Transfer :=
  l.foldl (fun acc t => insertByOrder t acc) []

/-- Sorting applied to every state of the graph (see `idleRun`). -/
def sortGraph (g : Graph) : Graph :=
  { g with states := g.states.map (fun kv => (kv.1, { kv.2 with transfers := sortByOrder kv.2.transfers })) }

/-- `ImplicitParallelizationInfo`. -/
structure IPI where
  arrayKeysMapping : List (String × List String)
  branchesNumber : Nat
  branchI : Nat

/-- `build_dynamic_keys_mapping`: one `ArrayItemGetter` per mapped key, at
the info's branch index. -/
def buildDKM (ipi : Option IPI) : DKM :=
  match ipi with
  | none => []
  | some i => i.arrayKeysMapping.map (fun kv => (kv.1, KeyPath.arrayItem kv.2 i.branchI))

/-- The key set of the proxy view `build_proxy_data` produces: top-level
keys of the record, inner keys of each relative key's subdict, the explicit
key mappings, and the dynamic keys mapping (`ProxyDict.__contains__`). -/
def proxyContainsKey (io : IOMapping) (dkm : DKM) (d : Dict) (k : String) : Bool :=
  assocContains d k
  || io.relativeKeys.any (fun rk => (relativeInnerMappings d rk).any (fun kv => kv.1 == k))
  || io.keysMappings.any (fun kv => kv.1 == k)
  || dkm.any (fun kv => kv.1 == k)

/-- `Edge.morph`: checks the mandatory keys against the proxy view
(`_throw_if_not_set` raises a bare `KeyError()` on the first missing key)
and then applies the transform.  The default pre/post hooks are no-ops. -/
def edgeMorph (e : Edge) (dkm : DKM) (d : Dict) : Except Exc Dict :=
  if e.mandatoryKeys.all (fun k => proxyContainsKey e.io dkm d k) then
    .ok (e.morphf d)
  else .error .keyError

/-- `State._activate_input_edge`: scalar increment outside implicit
parallelization (or at a terminal state); otherwise the scalar counter is
first replaced by a per-branch zero vector and the branch entry is
incremented.  An out-of-range branch index is a Python `IndexError`, and
`+= 1` on a per-branch list outside parallelization a `TypeError`. -/
def activateInputEdge (s : State) (c : Counter) (ipi : Option IPI) : Except Exc Counter :=
  match ipi with
  | none =>
      match c.activated with
      | .scalar n => .ok { c with activated := .scalar (n + 1) }
      | .perBranch _ => .error (.exception "TypeError")
  | some i =>
      if s.isTermState then
        match c.activated with
        | .scalar n => .ok { c with activated := .scalar (n + 1) }
        | .perBranch _ => .error (.exception "TypeError")
      else
        let l := match c.activated with
                 | .scalar _ => List.replicate i.branchesNumber 0
                 | .perBranch l => l
        match l.get? i.branchI with
        | some v => .ok { c with activated := .perBranch (l.set i.branchI (v + 1)) }
        | none => .error (.exception "IndexError")

/-- `State._ready_to_transfer`: the join threshold is
`input_edges_number - looped_edges_number`; under implicit parallelization
a terminal state instead requires `branches_number` arrivals on the scalar
counter, a non-terminal state compares its per-branch entry.  A Python
comparison of a list with an int is `False`. -/
def readyToTransfer (s : State) (c : Counter) (ipi : Option IPI) : Except Exc Bool :=
  let req : Int := c.inputEdgesNumber - c.loopedEdgesNumber
  match ipi with
  | some i =>
      if s.isTermState then
        .ok (match c.activated with
             | .scalar n => n == (i.branchesNumber : Int)
             | .perBranch _ => false)
      else
        match c.activated with
        | .perBranch l =>
            match l.get? i.branchI with
            | some v => .ok (v == req)
            | none => .error (.exception "IndexError")
        | .scalar _ => .error (.exception "TypeError")
  | none =>
      .ok (match c.activated with
           | .scalar n => n == req
           | .perBranch _ => false)

/-- `State._reset_activity`: clears the branching history; when the state
is ready and has a loop edge the counter is decremented by one, otherwise
it is reset to zero (scalar or per-branch following the same dispatch as
activation). -/
def resetActivity (s : State) (c0 : Counter) (ipi : Option IPI) : Except Exc Counter := do
  let c := { c0 with branchingStatesHistory := none }
  let ready ← readyToTransfer s c ipi
  if ready && (c.loopedEdgesNumber != 0) then
    match ipi with
    | none =>
        match c.activated with
        | .scalar n => .ok { c with activated := .scalar (n - 1) }
        | .perBranch _ => .error (.exception "TypeError")
    | some i =>
        if s.isTermState then
          match c.activated with
          | .scalar n => .ok { c with activated := .scalar (n - 1) }
          | .perBranch _ => .error (.exception "TypeError")
        else
          match c.activated with
          | .perBranch l =>
              match l.get? i.branchI with
              | some v => .ok { c with activated := .perBranch (l.set i.branchI (v - 1)) }
              | none => .error (.exception "IndexError")
          | .scalar _ => .error (.exception "TypeError")
  else
    match ipi with
    | none => .ok { c with activated := .scalar 0 }
    | some i =>
        if s.isTermState then .ok { c with activated := .scalar 0 }
        else
          match c.activated with
          | .perBranch l =>
              match l.get? i.branchI with
              | some _ => .ok { c with activated := .perBranch (l.set i.branchI 0) }
              | none => .error (.exception "IndexError")
          | .scalar _ => .error (.exception "TypeError")

/-- What `make_transfer_func` captures: the selected transfers, the state's
array-key mapping, the implicit-parallelization info at capture time and
the state's name (for diagnostics). -/
structure MorphSpec where
  transfers : List Transfer
  arrayKeysMapping : Option (List (String × List String))
  ipi : Option IPI
  stateName : String

/-- A pending continuation as handled by the policy's worklist: a bound
transfer application (`partial(t.transfer, dynamic_keys_mapping=...)`), the
`transfer_to_termination` function, or a `_morph` closure. -/
inductive Cont where
  | transfer (t : Transfer) (dkm : DKM)
  | termination
  | morph (spec : MorphSpec)

/-- The list comprehension of `State.run` selecting the transfers whose
selector entry is true and whose guard passes; indexing follows the
selector vector (`transfers[i]` on a true entry beyond the transfer count
is a Python `IndexError`; guards are short-circuited on false entries). -/
def selectTransfersGo (transfers : List Transfer) (d : Dict) (dkm : DKM) :
    Nat → List Bool → Except Exc (List Transfer)
  | _, [] => .ok []
  | i, b :: bs =>
      if b then
        match transfers.get? i with
        | some t =>
            if t.edge.pred d then
              (selectTransfersGo transfers d dkm (i + 1) bs).map (fun l => t :: l)
            else selectTransfersGo transfers d dkm (i + 1) bs
        | none => .error (.exception "IndexError")
      else selectTransfersGo transfers d dkm (i + 1) bs

/-- `State.run` (graph.py lines 258-295): resolve the proxy state, activate
the input edge, stop with no transition while the join barrier is not
reached, reset activity, clear the parallelization info at a terminal
state, return the termination transfer for a sink state, evaluate selector
and guards (an empty or exhausted selection raises
`GraphUnexpectedTermination`), and hand the selected transfers to the
parallelization policy. -/
def stateRun : Nat → Graph → String → Ctrs → Dict → Option IPI →
    Except Exc (Option Cont × Option IPI × Ctrs)
  | 0, _, _, _, _, _ => .error .fuelExhausted
  | fuel + 1, g, sid, ctrs, data, ipi =>
    match lookupState g sid with
    | none => .error (.exception ("unknown state " ++ sid))
    | some s =>
      match s.proxyState with
      | some pid => stateRun fuel g pid ctrs data ipi
      | none => do
        let c1 ← activateInputEdge s (ctrs sid) ipi
        let ctrs1 := updateCtr ctrs sid c1
        let ready ← readyToTransfer s c1 ipi
        if !ready then .ok (none, none, ctrs1)
        else do
          let c2 ← resetActivity s c1 ipi
          let ctrs2 := updateCtr ctrs sid c2
          let ipi2 := if s.isTermState then none else ipi
          if s.transfers.isEmpty then .ok (some .termination, none, ctrs2)
          else
            let dkm := buildDKM ipi2
            let selEdges := s.selector data
            if selEdges.isEmpty then
              .error (.gut ("STATE " ++ s.name ++ ": error in selector: " ++ toString selEdges))
            else do
              let sel ← selectTransfersGo s.transfers data dkm 0 selEdges
              if sel.isEmpty then
                .error (.gut ("ERROR: no transfer function has been selected out of " ++
                  toString s.transfers.length ++ " ones."))
              else .ok (some (.morph ⟨sel, s.arrayKeysMapping, ipi2, s.name⟩), ipi2, ctrs2)

/-- `_run_state`: runs the state and catches exactly
`GraphUnexpectedTermination`, recording its message under the data record's
error-marker key and yielding no transition; every other exception
propagates. -/
def runStateCaught (fuel : Nat) (g : Graph) (sid : String) (ctrs : Ctrs) (data : Dict)
    (ipi : Option IPI) : Except Exc (Option Cont × Option IPI × Ctrs × Dict) :=
  match stateRun fuel g sid ctrs data ipi with
  | .error (.gut m) => .ok (none, none, ctrs, assocSet data "__EXCEPTION__" (Val.str m))
  | .error e => .error e
  | .ok (c, i, ctrs1) => .ok (c, i, ctrs1, data)

/-- `len()` of a Python value (arrays, dicts and strings have a length). -/
def lenVal : Val → Except Exc Nat
  | .arr l => .ok l.length
  | .dict d => .ok d.length
  | .str s => .ok s.length
  | _ => .error (.exception "TypeError: object has no len")

/-- The fan-out branch count of implicit parallelization:
`len(ProxyDict(data, keys_mappings=akm)[anykey])` where `anykey` is the
first mapped key, i.e. the length of the array fetched through the first
mapping's key path. -/
def branchCount (akm : List (String × List String)) (data : Dict) : Except Exc Nat :=
  match akm with
  | [] => .error (.exception "StopIteration")
  | (_, p) :: _ =>
      match recursiveGetPath data p with
      | some v => lenVal v
      | none => .error (.exception "AttributeError")

/-- The fan-out of `_morph` for a single transfer under an array-key
mapping: one bound transfer application and one
`ImplicitParallelizationInfo` per branch index below the branch count. -/
def morphFanOut (t : Transfer) (akm : List (String × List String)) (data : Dict) :
    Except Exc (List Cont × List (Option IPI)) := do
  let n ← branchCount akm data
  .ok ((List.range n).map (fun i => Cont.transfer t (buildDKM (some (IPI.mk akm n i)))),
       (List.range n).map (fun i => some (IPI.mk akm n i)))

/-- `_requires_joint_of_implicit_parallelization`. -/
def requiresJoint (akm : Option (List (String × List String)))
    (ipis : List (Option IPI)) : Bool :=
  match akm with
  | none => false
  | some _ => ipis.any (fun o => o.isSome)

/-- The requests of the parallelization policy's recursion: apply one
continuation (`t(data)` or a nested `_morph`), drive the worklist of
pending continuations (`_morph`'s while loop), or step one batch of
continuations (the for loop of one while iteration). -/
inductive StepReq where
  | cont (c : Cont) (ctrs : Ctrs) (data : Dict)
  | drive (akm : Option (List (String × List String))) (sname : String)
      (conts : List Cont) (ipis : List (Option IPI)) (ctrs : Ctrs) (data : Dict)
  | batch (pend : List (Cont × Option IPI)) (accC : List Cont)
      (accI : List (Option IPI)) (ctrs : Ctrs) (data : Dict)

/-- The responses: a next state (possibly `None`), or a batch's collected
continuations, or the batch's early `return None`. -/
inductive StepResp where
  | next (st : Option String) (ctrs : Ctrs) (data : Dict)
  | collected (conts : List Cont) (ipis : List (Option IPI)) (ctrs : Ctrs) (data : Dict)
  | earlyNone (ctrs : Ctrs) (data : Dict)

/-- `SerialParallelizationPolicy.make_transfer_func`'s `_morph` and the
application of continuations, in one fuel-indexed recursion.

`cont (.morph spec)`: without an array-key mapping every selected transfer
becomes a pending continuation carrying the captured info; with one, more
than a single selected transfer raises `BadGraphStructure`, otherwise the
single transfer is fanned out per array element (`morphFanOut`).  The
worklist (`drive`) exits and applies the single remaining continuation once
exactly one is left and no implicit join is pending; an empty info list
raises the diagnostic guard.  A batch applies each continuation: a `None`
next state or an error marker set by `_run_state` makes the whole `_morph`
return `None`; continuations whose state is still waiting at its join
barrier contribute nothing. -/
def step : Nat → Graph → StepReq → Except Exc StepResp
  | 0, _, _ => .error .fuelExhausted
  | fuel + 1, g, .cont c ctrs data =>
    match c with
    | .transfer t dkm =>
        (edgeMorph t.edge dkm data).map (fun d1 => .next (some t.outputState) ctrs d1)
    | .termination => .ok (.next none ctrs data)
    | .morph spec =>
        match spec.arrayKeysMapping with
        | none =>
            let dkm := buildDKM spec.ipi
            step fuel g (.drive none spec.stateName
              (spec.transfers.map (fun t => Cont.transfer t dkm))
              (spec.transfers.map (fun _ => spec.ipi)) ctrs data)
        | some akm =>
            match spec.transfers with
            | [t] => do
                let fan ← morphFanOut t akm data
                step fuel g (.drive (some akm) spec.stateName fan.1 fan.2 ctrs data)
            | ts => .error (.badGraphStructure
                ("Impossible to create implicit paralleilzation in the state with " ++
                  toString ts.length ++ " output edges"))
  | fuel + 1, g, .drive akm sname conts ipis ctrs data =>
    if conts.length == 1 && !(requiresJoint akm ipis) then
      match conts with
      | [c] => step fuel g (.cont c ctrs data)
      | _ => .error (.exception "unreachable")
    else if ipis.isEmpty then
      .error (.exception ("Morphs count on state " ++ sname ++ " is " ++ toString conts.length))
    else do
      let r ← step fuel g (.batch (conts.zip ipis) [] [] ctrs data)
      match r with
      | .earlyNone ctrs1 data1 => .ok (.next none ctrs1 data1)
      | .collected cs is ctrs1 data1 => step fuel g (.drive akm sname cs is ctrs1 data1)
      | .next _ _ _ => .error (.exception "unreachable")
  | _ + 1, _, .batch [] accC accI ctrs data => .ok (.collected accC accI ctrs data)
  | fuel + 1, g, .batch ((c, ipi) :: rest) accC accI ctrs data => do
      let r ← step fuel g (.cont c ctrs data)
      match r with
      | .next none ctrs1 data1 => .ok (.earlyNone ctrs1 data1)
      | .next (some sid) ctrs1 data1 => do
          let rs ← runStateCaught fuel g sid ctrs1 data1 ipi
          match rs with
          | (nextT, nextIpi, ctrs2, data2) =>
            if assocContains data2 "__EXCEPTION__" then .ok (.earlyNone ctrs2 data2)
            else match nextT with
              | some c1 =>
                  step fuel g (.batch rest (accC ++ [c1]) (accI ++ [nextIpi]) ctrs2 data2)
              | none => step fuel g (.batch rest accC accI ctrs2 data2)
      | _ => .error (.exception "unreachable")

/-- Application of a transfer function returned by `State.run` (the call
`transfer_f(data)` in `Graph.run`). -/
def applyContF (fuel : Nat) (g : Graph) (c : Cont) (ctrs : Ctrs) (data : Dict) :
    Except Exc (Option String × Ctrs × Dict) :=
  match step fuel g (.cont c ctrs data) with
  | .ok (.next st ctrs1 data1) => .ok (st, ctrs1, data1)
  | .ok _ => .error (.exception "unreachable")
  | .error e => .error e

/-- The main loop of `Graph.run`: run the current state through
`_run_state`, return `False` as soon as the error marker appears in the
data record, apply the returned transfer function (`transfer_f(data)` on
`None` is a Python `TypeError`), check the marker again, and continue at
the produced state; a `None` state ends the run successfully. -/
def graphLoop : Nat → Graph → Option String → Option IPI → Ctrs → Dict →
    Except Exc (Bool × Dict)
  | 0, _, _, _, _, _ => .error .fuelExhausted
  | _ + 1, _, none, _, _, data => .ok (true, data)
  | fuel + 1, g, some sid, ipi, ctrs, data => do
      let r ← runStateCaught fuel g sid ctrs data ipi
      match r with
      | (tf, ipi1, ctrs1, data1) =>
        if assocContains data1 "__EXCEPTION__" then .ok (false, data1)
        else match tf with
          | none => .error (.exception "TypeError: NoneType object is not callable")
          | some c => do
              let r2 ← applyContF fuel g c ctrs1 data1
              match r2 with
              | (st, ctrs2, data2) =>
                if assocContains data2 "__EXCEPTION__" then .ok (false, data2)
                else graphLoop fuel g st ipi1 ctrs2 data2

/-- All-zero counters (Python `State.__init__`). -/
def initialCtrs : Ctrs := fun _ => {}

/-- `Graph.run` on first use: the INIT idle pass computes the join arities
from fresh counters, the data record is seeded with the working-directory
keys, and the main loop starts at the initial state. -/
def graphRun (fuel : Nat) (g : Graph) (data : Dict) (cwd : String) :
    Except Exc (Bool × Dict) :=
  let g1 := sortGraph g
  let ctrs := idleRun fuel g1 .init [(g1.initState, [g1.initState])] initialCtrs
  graphLoop fuel g1 (some g1.initState) none ctrs (initGraphData data cwd)

/-! ## Upload/download edges (edge.py)

The communication collaborator is abstracted as a record of `copy` and
`listdir` functions; a `CommunicationError` is its error string.  Paths are
strings; `os.path.join(a, b)` for the relative second components used here
is the slash join. -/

/-- The copy direction (`mode` argument of `copy`). -/
inductive CopyMode where
  | fromLocal
  | fromRemote
deriving DecidableEq

/-- The communication collaborator used by upload/download edges. -/
structure Comm where
  copy : String → String → CopyMode → Except String String
  listdir : String → Except String (List String)

/-- A string-valued read `data[k]` (missing key is a `KeyError`, a
non-string value a `TypeError` once used as a path). -/
def getStr (d : Dict) (k : String) : Except Exc String :=
  match assocGet d k with
  | some (Val.str s) => .ok s
  | some _ => .error (.exception "TypeError: expected str")
  | none => .error .keyError

/-- `os.path.join` for the relative second components used by these edges. -/
def pathJoin (a b : String) : String := a ++ "/" ++ b

/-- Python truthiness of a data value. -/
def truthyVal : Val → Bool
  | .int n => n != 0
  | .str s => s ≠ ""
  | .bool b => b
  | .null => false
  | .arr l => !l.isEmpty
  | .dict d => !d.isEmpty

/-- The per-key loop of `UploadOnRemoteEdge.execute`: try the copy with the
stored path; on a `CommunicationError` retry once with the path joined to
the working directory; a failure of the retry propagates.  The first
attempt's result is always written back, the retry's only when
`update_paths` is set. -/
def uploadGo (comm : Comm) (updatePaths : Bool) (rwd : String) :
    List String → Dict → Except Exc Dict
  | [], d => .ok d
  | k :: ks, d => do
      let p ← getStr d k
      match comm.copy p rwd .fromLocal with
      | .ok newp => uploadGo comm updatePaths rwd ks (assocSet d k (.str newp))
      | .error _ => do
          let wd ← getStr d "__WORKING_DIR__"
          match comm.copy (pathJoin wd p) rwd .fromLocal with
          | .ok rp =>
              uploadGo comm updatePaths rwd ks (if updatePaths then assocSet d k (.str rp) else d)
          | .error m => .error (.commError m)

/-- `UploadOnRemoteEdge.execute`: skip everything when the
already-remote-path key is set and truthy, otherwise copy every local path
key to the remote working directory with the single relative-path retry. -/
def uploadExecute (comm : Comm) (alreadyRemotePathKey : Option String) (updatePaths : Bool)
    (localPathsKeys : List String) (d : Dict) : Except Exc Dict :=
  match alreadyRemotePathKey with
  | some ak =>
      match assocGet d ak with
      | some v =>
          if truthyVal v then .ok d
          else do
            let rwd ← getStr d "__REMOTE_WORKING_DIR__"
            uploadGo comm updatePaths rwd localPathsKeys d
      | none => .error .keyError
  | none => do
      let rwd ← getStr d "__REMOTE_WORKING_DIR__"
      uploadGo comm updatePaths rwd localPathsKeys d

/-- The inner file loop of `DownloadFromRemoteEdge.execute`: each file is
downloaded from `remote_working_dir/f` into the working directory; the last
copy's result is kept as the local path.  There is no retry: a
`CommunicationError` propagates. -/
def downloadFiles (comm : Comm) (rwd wd : String) :
    List Val → Option String → Except Exc (Option String)
  | [], lp => .ok lp
  | f :: fs, _ => do
      let fname ← (match f with
                   | Val.str s => Except.ok s
                   | _ => Except.error (Exc.exception "TypeError: expected str"))
      match comm.copy (rwd ++ "/" ++ fname) wd .fromRemote with
      | .ok localPath => downloadFiles comm rwd wd fs (some localPath)
      | .error m => .error (.commError m)

/-- The wildcard loop: every entry of the remote directory is downloaded;
a `CommunicationError` propagates. -/
def copyAllRemote (comm : Comm) (wd : String) : List String → Except Exc Unit
  | [] => .ok ()
  | p :: ps =>
      match comm.copy p wd .fromRemote with
      | .ok _ => copyAllRemote comm wd ps
      | .error m => .error (.commError m)

/-- The per-key loop of `DownloadFromRemoteEdge.execute`: `None` values are
skipped, the `*` wildcard downloads the whole remote directory, a list or
single value is downloaded file by file; the key is rewritten to the local
path(s) when `update_paths` is set. -/
def downloadGo (comm : Comm) (updatePaths : Bool) (wd rwd : String) :
    List String → Dict → Except Exc Dict
  | [], d => .ok d
  | k :: ks, d => do
      let v ← (match assocGet d k with
               | some v => Except.ok v
               | none => Except.error Exc.keyError)
      match v with
      | Val.null => downloadGo comm updatePaths wd rwd ks d
      | Val.str s =>
          if s == "*" then do
            let paths ← (match comm.listdir rwd with
                         | .ok l => Except.ok l
                         | .error m => Except.error (Exc.commError m))
            let localFull := paths.map (fun p => wd ++ "/" ++ p)
            let remoteFull := paths.map (fun p => rwd ++ "/" ++ p)
            let _ ← copyAllRemote comm wd remoteFull
            let d1 := if updatePaths then assocSet d k (Val.arr (localFull.map Val.str)) else d
            downloadGo comm updatePaths wd rwd ks d1
          else do
            let lp ← downloadFiles comm rwd wd [Val.str s] none
            let d1 := if updatePaths then
              assocSet d k (match lp with | some s1 => Val.str s1 | none => Val.null) else d
            downloadGo comm updatePaths wd rwd ks d1
      | Val.arr files => do
          let lp ← downloadFiles comm rwd wd files none
          let d1 := if updatePaths then
            assocSet d k (match lp with | some s1 => Val.str s1 | none => Val.null) else d
          downloadGo comm updatePaths wd rwd ks d1
      | other => do
          let lp ← downloadFiles comm rwd wd [other] none
          let d1 := if updatePaths then
            assocSet d k (match lp with | some s1 => Val.str s1 | none => Val.null) else d
          downloadGo comm updatePaths wd rwd ks d1

/-- `DownloadFromRemoteEdge.execute`. -/
def downloadExecute (comm : Comm) (updatePaths : Bool) (remotePathsKeys : List String)
    (d : Dict) : Except Exc Dict := do
  let wd ← getStr d "__WORKING_DIR__"
  let rwd ← getStr d "__REMOTE_WORKING_DIR__"
  downloadGo comm updatePaths wd rwd remotePathsKeys d

/-! ## DSL parser (parser.py)

The topology compilation is embedded at the structural level: the parser's
factory produces states whose transfers record the referenced
predicate/morphism function names, the edge order and the comment; the
dynamic module import of `Func` is represented by the recorded names (a
`Func` with empty module or name is the dummy identity).  The quoted
comment and parenthesis placeholder machinery of `_param_from_props` is not
modelled: the embedded property strings contain neither quotes nor
parentheses. -/

/-- A `Func` reference as compiled by the factory. -/
structure PFunc where
  module : String := ""
  name : String := ""
  comment : String := ""
  dummy : Bool := true
deriving DecidableEq

/-- An edge as compiled by the factory. -/
structure PEdge where
  predF : PFunc := {}
  morphF : PFunc := {}
  order : Int := 0
  comment : String := ""
deriving DecidableEq

/-- A compiled transition: edge plus destination state name. -/
structure PTransfer where
  edge : PEdge
  target : String
deriving DecidableEq

/-- A state as built by the factory: transfers in insertion order and the
dummy selector size maintained by `connect_to`. -/
structure PState where
  name : String
  transfers : List PTransfer := []
  selectorSize : Nat := 1
  comment : Option String := none
deriving DecidableEq

/-- The `Params` slots of an entity line (all initialized to `None`, the
comment to the empty string). -/
structure Params where
  module : Option String := none
  entry_func : Option String := none
  predicate : Option String := none
  selector : Option String := none
  function : Option String := none
  morphism : Option String := none
  parallelism : Option String := none
  comment : String := ""
  order : Option String := none
  subgraph : Option String := none
  keys_mapping : Option String := none
  executable_parameters : Option String := none
  connection_data : Option String := none
  preprocessor : Option String := none
  postprocessor : Option String := none
  edge_index : Option String := none
  config_section : Option String := none
deriving DecidableEq

/-- `GraphFactory`: named states and entity definitions. -/
structure GraphFact where
  name : String := ""
  states : List (String × PState) := []
  entities : List (String × Params) := []
deriving DecidableEq

/-- Lookup of a parser state by name. -/
def lookupPState (l : List (String × PState)) (k : String) : Option PState :=
  match l with
  | [] => none
  | (k0, s) :: rest => if k0 == k then some s else lookupPState rest k

/-- In-place update of a parser state. -/
def updatePState (l : List (String × PState)) (k : String) (s : PState) :
    List (String × PState) :=
  match l with
  | [] => []
  | (k0, s0) :: rest => if k0 == k then (k0, s) :: rest else (k0, s0) :: updatePState rest k s

/-- Entity lookup. -/
def lookupEntity (l : List (String × Params)) (k : String) : Option Params :=
  match l with
  | [] => none
  | (k0, p) :: rest => if k0 == k then some p else lookupEntity rest k

/-- `setattr(parm, slot, value)` guarded by the slot-name check of
`_param_from_props` (an unknown name is a fatal parse error). -/
def Params.setSlot (p : Params) (slot v : String) : Except String Params :=
  if slot == "module" then .ok { p with module := some v }
  else if slot == "entry_func" then .ok { p with entry_func := some v }
  else if slot == "predicate" then .ok { p with predicate := some v }
  else if slot == "selector" then .ok { p with selector := some v }
  else if slot == "function" then .ok { p with function := some v }
  else if slot == "morphism" then .ok { p with morphism := some v }
  else if slot == "parallelism" then .ok { p with parallelism := some v }
  else if slot == "comment" then .ok { p with comment := v }
  else if slot == "order" then .ok { p with order := some v }
  else if slot == "subgraph" then .ok { p with subgraph := some v }
  else if slot == "keys_mapping" then .ok { p with keys_mapping := some v }
  else if slot == "executable_parameters" then .ok { p with executable_parameters := some v }
  else if slot == "connection_data" then .ok { p with connection_data := some v }
  else if slot == "preprocessor" then .ok { p with preprocessor := some v }
  else if slot == "postprocessor" then .ok { p with postprocessor := some v }
  else if slot == "edge_index" then .ok { p with edge_index := some v }
  else if slot == "config_section" then .ok { p with config_section := some v }
  else .error ("ERROR:Unknown parameter: " ++ slot)

/-- Python `str.split(sep)` for a one-character separator (an empty string
yields the singleton list of the empty string, as in Python). -/
def splitOnCharAux (c : Char) : List Char → List Char → List String
  | [], acc => [String.mk acc.reverse]
  | ch :: rest, acc =>
      if ch == c then String.mk acc.reverse :: splitOnCharAux c rest []
      else splitOnCharAux c rest (ch :: acc)

def splitOnChar (c : Char) (s : String) : List String :=
  splitOnCharAux c s.data []

/-- Rejoining the tail of a once-split assignment (`r.split("=", 1)[1]`). -/
def joinSep (sep : String) : List String → String
  | [] => ""
  | [x] => x
  | x :: y :: rest => x ++ sep ++ joinSep sep (y :: rest)

/-- `props.replace("]", "")`. -/
def dropRBrackets (s : String) : String :=
  String.mk (s.data.filter (fun ch => ch ≠ ']'))

/-- The assignment loop of `_param_from_props`: each comma-separated item
is split once at the equals sign (an item without one is an `IndexError`). -/
def paramsFromList : Params → List String → Except String Params
  | p, [] => .ok p
  | p, r :: rs =>
      match splitOnChar '=' r with
      | [] => .error "IndexError"
      | [_] => .error "IndexError"
      | slot :: v0 :: vrest => do
          let p1 ← p.setSlot slot (joinSep "=" (v0 :: vrest))
          paramsFromList p1 rs

/-- `_param_from_props` for quote- and parenthesis-free property strings:
strips closing brackets and folds the assignments. -/
def paramFromProps (props : String) : Except String Params :=
  if props == "" then .ok {}
  else paramsFromList {} (splitOnChar ',' (dropRBrackets props))

/-- The slot values containing the `\x00` placeholder, as gathered by
`_split_multiple` (slot order follows `__slots__`). -/
def splitSlots (p : Params) : List (String × List String) :=
  let opts : List (String × Option String) :=
    [("module", p.module), ("entry_func", p.entry_func), ("predicate", p.predicate),
     ("selector", p.selector), ("function", p.function), ("morphism", p.morphism),
     ("parallelism", p.parallelism), ("comment", some p.comment), ("order", p.order),
     ("subgraph", p.subgraph), ("keys_mapping", p.keys_mapping),
     ("executable_parameters", p.executable_parameters),
     ("connection_data", p.connection_data), ("preprocessor", p.preprocessor),
     ("postprocessor", p.postprocessor), ("edge_index", p.edge_index),
     ("config_section", p.config_section)]
  opts.foldr
    (fun kv acc =>
      match kv.2 with
      | some s => if s.data.contains '\x00' then (kv.1, splitOnChar '\x00' s) :: acc else acc
      | none => acc) []

/-- The length agreement check of `_split_multiple`. -/
def splitSlotsLength : List (String × List String) → Except String Nat
  | [] => .ok 0
  | (_, vs) :: rest =>
      if rest.all (fun kv => kv.2.length == vs.length) then .ok vs.length
      else .error "ERROR: Number of multiple params do not match"

/-- `_split_multiple`: one copy of the params per position, each multi-slot
distributed positionally. -/
def splitMultiple (p : Params) : Except String (List Params) := do
  let vals := splitSlots p
  let l ← splitSlotsLength vals
  vals.foldlM
    (fun res kv => (res.zip kv.2).mapM (fun pv => pv.1.setSlot kv.1 pv.2))
    (List.replicate l p)

/-- `_multiple_morphs`: without a morphism the parsed params are copied per
connection, otherwise the multi-slot split applies. -/
def multipleMorphs (props : String) (n : Nat) : Except String (List Params) := do
  let p ← paramFromProps props
  match p.morphism with
  | none => .ok (List.replicate n p)
  | some _ => splitMultiple p

/-- `GraphFactory.add_state`: creates the state on first sight, inheriting
the entity's comment when an entity of that name exists. -/
def factAddState (f : GraphFact) (sname : String) : GraphFact :=
  if (lookupPState f.states sname).isSome then f
  else { f with states := f.states ++
          [(sname, { name := sname,
                     comment := (lookupEntity f.entities sname).map (fun p => p.comment) })] }

/-- `GraphFactory._create_morphism`: no morphism gives the dummy pair;
otherwise the referenced entity may only set comment, predicate and
function, and the latter two must name defined entities whose module and
entry point become the compiled `Func` references. -/
def createMorphism (f : GraphFact) (morphname : Option String) :
    Except String (PFunc × PFunc × String) :=
  match morphname with
  | none => .ok ({}, {}, "")
  | some m =>
      match lookupEntity f.entities m with
      | none => .error ("KeyError: " ++ m)
      | some morph =>
          if morph.module.isSome || morph.entry_func.isSome || morph.selector.isSome ||
             morph.parallelism.isSome || morph.order.isSome || morph.subgraph.isSome ||
             morph.keys_mapping.isSome || morph.executable_parameters.isSome ||
             morph.connection_data.isSome || morph.preprocessor.isSome ||
             morph.postprocessor.isSome || morph.edge_index.isSome ||
             morph.config_section.isSome then
            .error ("ERROR: Morphisms could not have any params exept comment, predicate and function! " ++ m)
          else do
            let predF ← (match morph.predicate with
              | none => Except.ok ({} : PFunc)
              | some pname =>
                  match lookupEntity f.entities pname with
                  | none => Except.error ("ERROR: Predicate " ++ pname ++ " is not defined!")
                  | some pred =>
                      let md := pred.module.getD ""
                      let nm := pred.entry_func.getD ""
                      Except.ok { module := md, name := nm, comment := pred.comment,
                                  dummy := md == "" || nm == "" })
            let funcF ← (match morph.function with
              | none => Except.ok ({} : PFunc)
              | some fname =>
                  match lookupEntity f.entities fname with
                  | none => Except.error ("ERROR: Function: " ++ fname ++ " is not defined!")
                  | some fu =>
                      let md := fu.module.getD ""
                      let nm := fu.entry_func.getD ""
                      Except.ok { module := md, name := nm, comment := fu.comment,
                                  dummy := md == "" || nm == "" })
            .ok (predF, funcF, morph.comment)

/-- `GraphFactory.add_connection` followed by `State.connect_to`: appends
the new transfer to the source state, resizes its dummy selector to the new
transfer count, and clears the source state's comment (`connect_to` is
called without a comment and its always-true guard assigns `None`). -/
def factAddConnection (f : GraphFact) (st1 st2 : String) (morphism : Option String)
    (ordr : Int) : Except String GraphFact := do
  let cm ← createMorphism f morphism
  match lookupPState f.states st1 with
  | none => .error ("KeyError: " ++ st1)
  | some s1 =>
      let edge : PEdge := { predF := cm.1, morphF := cm.2.1, order := ordr, comment := cm.2.2 }
      let s1new : PState :=
        { s1 with transfers := s1.transfers ++ [{ edge := edge, target := st2 }],
                  selectorSize := s1.transfers.length + 1,
                  comment := none }
      .ok { f with states := updatePState f.states st1 s1new }

/-- The character scan behind
`re.split(r"\s*(=>|->|\[|\])\s*", raw)`: the two arrow separators are kept
as tokens, the brackets split without being kept (they are filtered out
right after the split), whitespace has already been stripped by
`parse_file`. -/
def splitTopoChars : List Char → List Char → List String
  | [], acc => [String.mk acc.reverse]
  | '-' :: '>' :: rest, acc => String.mk acc.reverse :: "->" :: splitTopoChars rest []
  | '=' :: '>' :: rest, acc => String.mk acc.reverse :: "=>" :: splitTopoChars rest []
  | '[' :: rest, acc => String.mk acc.reverse :: splitTopoChars rest []
  | ']' :: rest, acc => String.mk acc.reverse :: splitTopoChars rest []
  | ch :: rest, acc => splitTopoChars rest (ch :: acc)

/-- The token list `_topology` works on: the regex split with the empty
tokens (and the dropped brackets) filtered out. -/
def splitTopoLine (s : String) : List String :=
  (splitTopoChars s.data []).filter (fun t => t ≠ "")

/-- Python `int(...)` of an order property. -/
def parseOrderStr (s : String) : Except String Int :=
  match s.toInt? with
  | some n => .ok n
  | none => .error ("ValueError: invalid literal for int: " ++ s)

/-- The many-to-one connection loop: each source state is created and
connected to the single destination with its positional morphism (the
default order). -/
def manyToOneConnect (f : GraphFact) (dest : String) :
    List (String × Params) → Except String GraphFact
  | [] => .ok f
  | (st, m) :: rest => do
      let f1 := factAddState f st
      let f2 ← factAddConnection f1 st dest m.morphism 0
      manyToOneConnect f2 dest rest

/-- The one-to-many connection loop: each destination state is created and
the single source connected to it with its positional morphism and order
(`None` becomes 0 through `Edge.__init__`). -/
def oneToManyConnect (f : GraphFact) (src : String) :
    List (String × Params) → Except String GraphFact
  | [] => .ok f
  | (st, m) :: rest => do
      let f1 := factAddState f st
      let ordr ← (match m.order with
                  | some o => parseOrderStr o
                  | none => Except.ok 0)
      let f2 ← factAddConnection f1 src st m.morphism ordr
      oneToManyConnect f2 src rest

/-- `Parser._topology` (non-subgraph parser): splits the line, dispatches
on the multiplicity of the two sides, and adds states and connections.
The separator token (`->` or `=>`) is bound at position 1 of the split but
never consulted; an edge's order comes only from an explicit `order`
property (defaulting to 0). -/
def topology (raw : String) (f : GraphFact) : Except String GraphFact :=
  match splitTopoLine raw with
  | s0 :: _sep :: s2 :: restSpl =>
    let left := splitOnChar ',' s0
    let right := splitOnChar ',' s2
    if left.length > 1 && right.length > 1 then
      .error ("ERROR: Ambigious multiple connection in line: " ++ raw)
    else if left.length > 1 then do
      let props := restSpl.getD 0 ""
      let morphs ← multipleMorphs props left.length
      if morphs.length ≠ left.length then
        .error ("ERROR: Count of edges do not match to count of states in many to one connection! " ++ raw)
      else
        let dest := right.getD 0 ""
        manyToOneConnect (factAddState f dest) dest (left.zip morphs)
    else if right.length > 1 then do
      let props := restSpl.getD 0 ""
      let morphs ← multipleMorphs props right.length
      if morphs.length ≠ right.length then
        .error ("ERROR: Count of edges do not match to count of states in one to many connection! " ++ raw)
      else
        let src := left.getD 0 ""
        oneToManyConnect (factAddState f src) src (right.zip morphs)
    else
      let src := left.getD 0 ""
      let dest := right.getD 0 ""
      let f2 := factAddState (factAddState f src) dest
      match restSpl with
      | [props] => do
          let pr ← paramFromProps props
          let ordr ← (match pr.order with
                      | some o => parseOrderStr o
                      | none => Except.ok 0)
          factAddConnection f2 src dest pr.morphism ordr
      | [] => factAddConnection f2 src dest none 0
      | _ => .ok f2
  | _ => .error "IndexError"

/-! ## Helper lemmas -/

theorem assocGet_assocSet_self (d : Dict) (k : String) (v : Val) :
    assocGet (assocSet d k v) k = some v := by
  induction d with
  | nil => simp [assocSet, assocGet]
  | cons kv rest ih =>
      obtain ⟨k0, w⟩ := kv
      by_cases h : k0 = k
      · simp [assocSet, assocGet, h]
      · simp [assocSet, assocGet, h, ih]

theorem assocGet_assocSet_ne (d : Dict) (k k1 : String) (v : Val) (h : k1 ≠ k) :
    assocGet (assocSet d k v) k1 = assocGet d k1 := by
  have h2 : ¬(k = k1) := fun hh => h hh.symm
  induction d with
  | nil => simp [assocSet, assocGet, h2]
  | cons kv rest ih =>
      obtain ⟨k0, w⟩ := kv
      by_cases h0 : k0 = k
      · subst h0
        simp [assocSet, assocGet, h2]
      · by_cases h1 : k0 = k1
        · simp [assocSet, assocGet, h0, h1, h]
        · simp [assocSet, assocGet, h0, h1, ih]

theorem assocContains_eq_isSome (d : Dict) (k : String) :
    assocContains d k = (assocGet d k).isSome := by
  induction d with
  | nil => simp [assocContains, assocGet]
  | cons kv rest ih =>
      obtain ⟨k0, w⟩ := kv
      by_cases h : k0 = k
      · simp [assocContains, assocGet, h]
      · simp [assocContains, assocGet, h, ih]

theorem assocContains_assocSet_self (d : Dict) (k : String) (v : Val) :
    assocContains (assocSet d k v) k = true := by
  rw [assocContains_eq_isSome, assocGet_assocSet_self]
  rfl

theorem append_ne_empty_left (a b : String) (ha : a ≠ "") : a ++ b ≠ "" := by
  intro h
  apply ha
  have hd : (a ++ b).data = ([] : List Char) := by rw [h]
  rw [String.data_append] at hd
  have h1 : a.data = [] := (List.append_eq_nil.mp hd).1
  exact String.ext (by simpa using h1)

/-! ## C1: the join barrier of State.run -/

/-- **C1.** For a state with several incoming edges, `State.run` can return
a transfer function only when the incremented activation counter equals
`input_edges_number - looped_edges_number` (scalar counting without
implicit parallelization, per-branch counting with it); on every earlier
activation it returns no transition, leaving the counters with just the
activation recorded. -/
theorem stateRun_join_barrier
    (fuel : Nat) (g : Graph) (sid : String) (ctrs : Ctrs) (data : Dict) (s : State)
    (hs : lookupState g sid = some s) (hproxy : s.proxyState = none)
    (hmulti : 2 ≤ (ctrs sid).inputEdgesNumber) :
    ((∀ n, (ctrs sid).activated = .scalar n →
        ((∀ c i ctrs1, stateRun (fuel + 1) g sid ctrs data none = .ok (some c, i, ctrs1) →
            n + 1 = (ctrs sid).inputEdgesNumber - (ctrs sid).loopedEdgesNumber)
         ∧ (n + 1 ≠ (ctrs sid).inputEdgesNumber - (ctrs sid).loopedEdgesNumber →
            stateRun (fuel + 1) g sid ctrs data none =
              .ok (none, none,
                updateCtr ctrs sid { ctrs sid with activated := .scalar (n + 1) }))))
     ∧ (∀ ip l v, s.isTermState = false → (ctrs sid).activated = .perBranch l →
          l.get? ip.branchI = some v →
          ((∀ c i ctrs1, stateRun (fuel + 1) g sid ctrs data (some ip) = .ok (some c, i, ctrs1) →
              v + 1 = (ctrs sid).inputEdgesNumber - (ctrs sid).loopedEdgesNumber)
           ∧ (v + 1 ≠ (ctrs sid).inputEdgesNumber - (ctrs sid).loopedEdgesNumber →
              stateRun (fuel + 1) g sid ctrs data (some ip) =
                .ok (none, none,
                  updateCtr ctrs sid
                    { ctrs sid with activated := .perBranch (l.set ip.branchI (v + 1)) }))))) := by
  constructor
  · intro n hact
    have hbarrier : n + 1 ≠ (ctrs sid).inputEdgesNumber - (ctrs sid).loopedEdgesNumber →
        stateRun (fuel + 1) g sid ctrs data none =
          .ok (none, none, updateCtr ctrs sid { ctrs sid with activated := .scalar (n + 1) }) := by
      intro hne
      have hbeq : ((n + 1 : Int) == (ctrs sid).inputEdgesNumber - (ctrs sid).loopedEdgesNumber)
          = false := by simpa using hne
      simp [stateRun, hs, hproxy, activateInputEdge, hact, readyToTransfer,
        bind, Except.bind, hbeq]
    refine ⟨?_, hbarrier⟩
    intro c i ctrs1 hres
    by_contra hne
    rw [hbarrier hne] at hres
    simp at hres
  · intro ip l v hterm hact hget
    have hbarrier : v + 1 ≠ (ctrs sid).inputEdgesNumber - (ctrs sid).loopedEdgesNumber →
        stateRun (fuel + 1) g sid ctrs data (some ip) =
          .ok (none, none,
            updateCtr ctrs sid
              { ctrs sid with activated := .perBranch (l.set ip.branchI (v + 1)) }) := by
      intro hne
      have hbeq : ((v + 1 : Int) == (ctrs sid).inputEdgesNumber - (ctrs sid).loopedEdgesNumber)
          = false := by simpa using hne
      have hlt : ip.branchI < l.length := (List.get?_eq_some.mp hget).1
      have hget1 : (l.set ip.branchI (v + 1)).get? ip.branchI = some (v + 1) := by
        rw [List.get?_set_eq_of_lt]
        exact hlt
      have hget2 : l[ip.branchI]? = some v := by simpa using hget
      have hget12 : (l.set ip.branchI (v + 1))[ip.branchI]? = some (v + 1) := by
        simpa using hget1
      simp [stateRun, hs, hproxy, activateInputEdge, hterm, hact, hget2,
        readyToTransfer, bind, Except.bind, hget12, hbeq]
    refine ⟨?_, hbarrier⟩
    intro c i ctrs1 hres
    by_contra hne
    rw [hbarrier hne] at hres
    simp at hres

/-- A trivial edge (always-true guard, identity transform). -/
def c1Edge : Edge := { pred := fun _ => true, morphf := fun d => d }

/-- A join state with one outgoing transfer, used to instantiate C1. -/
def c1State : State := { name := "s", transfers := [{ edge := c1Edge, outputState := "s" }] }

def c1Graph : Graph := { states := [("s", c1State)], initState := "s" }

/-- Counters of a two-predecessor join state before its first activation. -/
def c1Ctrs : Ctrs := fun _ => { inputEdgesNumber := 2, loopedEdgesNumber := 0 }

/-- Witness for C1: at a state with two incoming edges and no activation
yet, the first activation does not reach the threshold `2 - 0`, so
`State.run` returns no transition and only records the activation. -/
theorem stateRun_join_barrier_witness :
    (0 : Int) + 1 ≠ (c1Ctrs "s").inputEdgesNumber - (c1Ctrs "s").loopedEdgesNumber ∧
    stateRun 1 c1Graph "s" c1Ctrs [] none =
      .ok (none, none, updateCtr c1Ctrs "s" { c1Ctrs "s" with activated := .scalar (0 + 1) }) := by
  have h := stateRun_join_barrier 0 c1Graph "s" c1Ctrs [] c1State rfl rfl (by decide)
  exact ⟨by decide, (h.1 0 rfl).2 (by decide)⟩

/-! ## C9: working-directory seeding of Graph.run -/

/-- **C9.** `run(data)` always sets the current-working-directory key; the
working-directory key is seeded from it only when absent (a caller-supplied
value is left unchanged); every other key of the record is untouched by the
initialization. -/
theorem initGraphData_frame (data : Dict) (cwd : String) :
    assocGet (initGraphData data cwd) "__CURRENT_WORKING_DIR__" = some (.str cwd) ∧
    assocGet (initGraphData data cwd) "__WORKING_DIR__" =
      (if assocContains data "__WORKING_DIR__" then assocGet data "__WORKING_DIR__"
       else some (.str cwd)) ∧
    (∀ k, k ≠ "__CURRENT_WORKING_DIR__" → k ≠ "__WORKING_DIR__" →
      assocGet (initGraphData data cwd) k = assocGet data k) := by
  have hcontains : assocContains (assocSet data "__CURRENT_WORKING_DIR__" (Val.str cwd))
      "__WORKING_DIR__" = assocContains data "__WORKING_DIR__" := by
    rw [assocContains_eq_isSome, assocContains_eq_isSome,
      assocGet_assocSet_ne _ _ _ _ (by decide)]
  have hred : initGraphData data cwd =
      (if assocContains data "__WORKING_DIR__" then
        assocSet data "__CURRENT_WORKING_DIR__" (Val.str cwd)
       else assocSet (assocSet data "__CURRENT_WORKING_DIR__" (Val.str cwd))
         "__WORKING_DIR__" (Val.str cwd)) := by
    simp only [initGraphData]
    rw [hcontains]
  refine ⟨?_, ?_, ?_⟩
  · rw [hred]
    by_cases hw : assocContains data "__WORKING_DIR__"
    · rw [if_pos hw]
      exact assocGet_assocSet_self _ _ _
    · rw [if_neg hw, assocGet_assocSet_ne _ _ _ _ (by decide)]
      exact assocGet_assocSet_self _ _ _
  · rw [hred]
    by_cases hw : assocContains data "__WORKING_DIR__"
    · rw [if_pos hw, if_pos hw]
      exact assocGet_assocSet_ne _ _ _ _ (by decide)
    · rw [if_neg hw, if_neg hw]
      exact assocGet_assocSet_self _ _ _
  · intro k hk1 hk2
    rw [hred]
    by_cases hw : assocContains data "__WORKING_DIR__"
    · rw [if_pos hw]
      exact assocGet_assocSet_ne _ _ _ _ hk1
    · rw [if_neg hw, assocGet_assocSet_ne _ _ _ _ hk2]
      exact assocGet_assocSet_ne _ _ _ _ hk1

/-- Witness for C9: a record with a caller-supplied working directory and a
payload key keeps both through initialization while the
current-working-directory key is set. -/
theorem initGraphData_frame_witness :
    assocGet (initGraphData [("x", Val.int 5), ("__WORKING_DIR__", Val.str "/w")] "/c")
        "__CURRENT_WORKING_DIR__" = some (.str "/c") ∧
    assocGet (initGraphData [("x", Val.int 5), ("__WORKING_DIR__", Val.str "/w")] "/c")
        "__WORKING_DIR__" =
      (if assocContains [("x", Val.int 5), ("__WORKING_DIR__", Val.str "/w")] "__WORKING_DIR__"
       then assocGet [("x", Val.int 5), ("__WORKING_DIR__", Val.str "/w")] "__WORKING_DIR__"
       else some (.str "/c")) ∧
    assocGet (initGraphData [("x", Val.int 5), ("__WORKING_DIR__", Val.str "/w")] "/c") "x" =
      assocGet [("x", Val.int 5), ("__WORKING_DIR__", Val.str "/w")] "x" := by
  have h := initGraphData_frame [("x", Val.int 5), ("__WORKING_DIR__", Val.str "/w")] "/c"
  exact ⟨h.1, h.2.1, h.2.2 "x" (by decide) (by decide)⟩

/-! ## C10: connect_to resets the selector -/

/-- **C10.** `State.connect_to` appends exactly one transfer and replaces
the selector with a fresh select-all selector sized to the new transfer
count; the resulting selector's output length always equals the number of
outgoing transitions, and the result does not depend on any selector
assigned before the call (a custom selector is discarded). -/
theorem connectTo_selector_reset (s : State) (termName : String) (e : Edge)
    (c : Option String) :
    (s.connectTo termName e c).transfers =
      s.transfers ++ [{ edge := e, outputState := termName }] ∧
    (∀ d, (s.connectTo termName e c).selector d =
      List.replicate (s.transfers.length + 1) true) ∧
    (∀ d, ((s.connectTo termName e c).selector d).length =
      (s.connectTo termName e c).transfers.length) ∧
    (∀ (s2 : State) (c2 : Option String), s2.transfers.length = s.transfers.length →
      ∀ d, (s2.connectTo termName e c2).selector d = (s.connectTo termName e c).selector d) := by
  refine ⟨rfl, fun d => rfl, fun d => ?_, fun s2 c2 hlen d => ?_⟩
  · simp [State.connectTo, selectorAllTrue]
  · simp [State.connectTo, selectorAllTrue, hlen]

/-- A state with a custom (all-false) selector, to instantiate C10. -/
def c10State : State := { name := "s", selector := fun _ => [false] }

/-- Witness for C10: connecting from a state with a custom selector yields
the same fresh select-all selector as connecting from a default state with
equally many transfers, and its output is the select-all vector. -/
theorem connectTo_selector_reset_witness :
    (c10State.connectTo "t" c1Edge none).selector [] =
      (({ name := "s" } : State).connectTo "t" c1Edge none).selector [] ∧
    (({ name := "s" } : State).connectTo "t" c1Edge none).selector [] = [true] := by
  have h := connectTo_selector_reset ({ name := "s" } : State) "t" c1Edge none
  exact ⟨h.2.2.2 c10State none rfl [], (h.2.1 [])⟩

/-! ## C8: ProxyDict write-then-read round-trip -/

theorem kmGet_kmSet_self (m : List (String × KeyPath)) (k : String) (p : KeyPath) :
    kmGet (kmSet m k p) k = some p := by
  induction m with
  | nil => simp [kmSet, kmGet]
  | cons kv rest ih =>
      obtain ⟨k0, q⟩ := kv
      by_cases h : k0 = k
      · simp [kmSet, kmGet, h]
      · simp [kmSet, kmGet, h, ih]

/-- Reading back a value written along a key path by `recursive_set`
succeeds: the `setdefault` walk materializes exactly the dicts the
`get`-fold then follows. -/
theorem recursiveSetPath_get : ∀ (p : List String) (d d1 : Dict) (v : Val),
    recursiveSetPath d p v = some d1 → recursiveGetPath d1 p = some v := by
  intro p
  induction p with
  | nil => intro d d1 v h; simp [recursiveSetPath] at h
  | cons k rest ih =>
      intro d d1 v h
      cases rest with
      | nil =>
          simp only [recursiveSetPath, Option.some.injEq] at h
          subst h
          simp [recursiveGetPath, recursiveGetVal, assocGet_assocSet_self]
      | cons k1 rest1 =>
          cases hget : assocGet d k with
          | none =>
              simp only [recursiveSetPath, hget] at h
              cases hsub : recursiveSetPath [] (k1 :: rest1) v with
              | none => rw [hsub] at h; simp at h
              | some sub1 =>
                  rw [hsub] at h
                  simp at h
                  subst h
                  have hik := ih [] sub1 v hsub
                  simp [recursiveGetPath, recursiveGetVal, assocGet_assocSet_self] at hik ⊢
                  exact hik
          | some w =>
              cases w with
              | dict sub =>
                  simp only [recursiveSetPath, hget] at h
                  cases hsub : recursiveSetPath sub (k1 :: rest1) v with
                  | none => rw [hsub] at h; simp at h
                  | some sub1 =>
                      rw [hsub] at h
                      simp at h
                      subst h
                      have hik := ih sub sub1 v hsub
                      simp [recursiveGetPath, recursiveGetVal, assocGet_assocSet_self] at hik ⊢
                      exact hik
              | int n => simp [recursiveSetPath, hget] at h
              | str s => simp [recursiveSetPath, hget] at h
              | bool b => simp [recursiveSetPath, hget] at h
              | null => simp [recursiveSetPath, hget] at h
              | arr l => simp [recursiveSetPath, hget] at h

/-- **C8.** For a `ProxyDict` over `d` with a default relative key, writing
a key not covered by any mapping and reading it back returns the written
value, and the underlying record holds the value at
`default_relative_key + [key]`. -/
theorem proxyDict_write_read_roundtrip
    (d : Dict) (relKeys : List (List String)) (km : List (String × KeyPath))
    (drk : List String) (k : String) (v : Val) (pd1 : ProxyDict)
    (hunmapped : kmGet (mkProxyDict d relKeys km drk).keysMappings k = none)
    (hset : (mkProxyDict d relKeys km drk).set k v = some pd1) :
    pd1.get k = some v ∧ recursiveGetPath pd1.data (drk ++ [k]) = some v := by
  unfold ProxyDict.set at hset
  rw [hunmapped] at hset
  dsimp only at hset
  cases hd1 : recursiveSet (mkProxyDict d relKeys km drk).data
      (KeyPath.path ((mkProxyDict d relKeys km drk).defaultRelativeKey ++ [k])) v with
  | none => rw [hd1] at hset; simp at hset
  | some d1 =>
      rw [hd1] at hset
      simp at hset
      subst hset
      have hget : recursiveGetPath d1 (drk ++ [k]) = some v := by
        apply recursiveSetPath_get (drk ++ [k]) (mkProxyDict d relKeys km drk).data _ v
        simpa [recursiveSet] using hd1
      refine ⟨?_, hget⟩
      unfold ProxyDict.get
      rw [kmGet_kmSet_self]
      simpa [recursiveGet] using hget

/-- The proxy dict produced by writing a fresh key through the view of
`[("a", 1)]` with default relative key `["b"]` (the docstring example of
misc.py). -/
def c8pd1 : ProxyDict :=
  { data := [("a", Val.int 1), ("b", Val.dict [("z", Val.int 0)])],
    keysMappings := [("a", KeyPath.single "a"), ("z", KeyPath.path ["b", "z"])],
    defaultRelativeKey := ["b"] }

/-- Witness for C8: the concrete write `pd["z"] = 0` through the view of
`{"a": 1}` with default relative key `("b",)` lands at `d["b"]["z"]` and
reads back. -/
theorem proxyDict_write_read_roundtrip_witness :
    c8pd1.get "z" = some (Val.int 0) ∧
    recursiveGetPath c8pd1.data (["b"] ++ ["z"]) = some (Val.int 0) :=
  proxyDict_write_read_roundtrip [("a", Val.int 1)] [] [] ["b"] "z" (Val.int 0) c8pd1 rfl rfl

/-! ## C3: selector exhaustion is caught and recorded -/

/-- `_reset_activity` never raises in the scalar case. -/
theorem resetActivity_scalar_isOk (s : State) (c : Counter) (m : Int)
    (h : c.activated = .scalar m) : ∃ c2, resetActivity s c none = .ok c2 := by
  simp [resetActivity, readyToTransfer, h, bind, Except.bind]
  split
  · exact ⟨_, rfl⟩
  · exact ⟨_, rfl⟩

/-- A ready state whose selector returns an empty vector, or whose
selected-and-guarded transfer list is empty, makes `State.run` raise
`GraphUnexpectedTermination` with a non-empty message. -/
theorem stateRun_gut_of_empty_selection
    (fuel : Nat) (g : Graph) (sid : String) (ctrs : Ctrs) (data : Dict) (s : State) (n : Int)
    (hs : lookupState g sid = some s) (hproxy : s.proxyState = none)
    (hact : (ctrs sid).activated = .scalar n)
    (hready : n + 1 = (ctrs sid).inputEdgesNumber - (ctrs sid).loopedEdgesNumber)
    (hne : s.transfers.isEmpty = false)
    (hsel : s.selector data = [] ∨
      selectTransfersGo s.transfers data [] 0 (s.selector data) = .ok []) :
    ∃ msg, stateRun (fuel + 1) g sid ctrs data none = .error (.gut msg) ∧ msg ≠ "" := by
  have hbeq : ((n + 1 : Int) == (ctrs sid).inputEdgesNumber - (ctrs sid).loopedEdgesNumber)
      = true := by simpa using hready
  obtain ⟨c2, hc2⟩ := resetActivity_scalar_isOk s
    { ctrs sid with activated := .scalar (n + 1) } (n + 1) rfl
  cases hE : s.selector data with
  | nil =>
      refine ⟨"STATE " ++ s.name ++ ": error in selector: " ++ toString ([] : List Bool),
        ?_, ?_⟩
      · simp [stateRun, hs, hproxy, activateInputEdge, hact, readyToTransfer, bind,
          Except.bind, hbeq, hc2, hne, hE, buildDKM]
      · exact append_ne_empty_left _ _
          (append_ne_empty_left _ _ (append_ne_empty_left _ _ (by decide)))
  | cons b bs =>
      cases hsel with
      | inl h0 => rw [h0] at hE; cases hE
      | inr h0 =>
          rw [hE] at h0
          refine ⟨"ERROR: no transfer function has been selected out of " ++
            toString s.transfers.length ++ " ones.", ?_, ?_⟩
          · simp [stateRun, hs, hproxy, activateInputEdge, hact, readyToTransfer, bind,
              Except.bind, hbeq, hc2, hne, hE, h0, buildDKM]
          · exact append_ne_empty_left _ _ (append_ne_empty_left _ _ (by decide))

/-- A `GraphUnexpectedTermination` raised by the current state is caught at
the `_run_state` boundary: the message lands under the error-marker key and
the main loop returns `False`. -/
theorem graphLoop_marker_of_gut (fuel : Nat) (g : Graph) (sid : String) (ipi : Option IPI)
    (ctrs : Ctrs) (data : Dict) (msg : String)
    (h : stateRun (fuel + 1) g sid ctrs data ipi = .error (.gut msg)) :
    graphLoop (fuel + 2) g (some sid) ipi ctrs data =
      .ok (false, assocSet data "__EXCEPTION__" (Val.str msg)) := by
  simp [graphLoop, runStateCaught, h, bind, Except.bind, assocContains_assocSet_self]

/-- **C3.** When the run reaches a state whose selector returns an empty or
all-false vector, or whose guards all fail, `Graph.run` returns `False`
and the data record carries a non-empty message under the error-marker key
`"__EXCEPTION__"`; no exception escapes from this condition. -/
theorem graphLoop_selector_exhaustion
    (fuel : Nat) (g : Graph) (sid : String) (ctrs : Ctrs) (data : Dict) (s : State) (n : Int)
    (hs : lookupState g sid = some s) (hproxy : s.proxyState = none)
    (hact : (ctrs sid).activated = .scalar n)
    (hready : n + 1 = (ctrs sid).inputEdgesNumber - (ctrs sid).loopedEdgesNumber)
    (hne : s.transfers.isEmpty = false)
    (hsel : s.selector data = [] ∨
      selectTransfersGo s.transfers data [] 0 (s.selector data) = .ok []) :
    ∃ msg, graphLoop (fuel + 2) g (some sid) none ctrs data =
        .ok (false, assocSet data "__EXCEPTION__" (Val.str msg)) ∧ msg ≠ "" := by
  obtain ⟨msg, hrun, hmsg⟩ :=
    stateRun_gut_of_empty_selection fuel g sid ctrs data s n hs hproxy hact hready hne hsel
  exact ⟨msg, graphLoop_marker_of_gut fuel g sid none ctrs data msg hrun, hmsg⟩

/-- A state whose custom selector always answers `[false]`. -/
def c3State : State :=
  { name := "b", transfers := [{ edge := c1Edge, outputState := "e" }],
    selector := fun _ => [false] }

def c3Graph : Graph :=
  { states := [("b", c3State), ("e", { name := "e", isTermState := true })],
    initState := "b" }

/-- Counters after the INIT pass of `c3Graph`. -/
def c3Ctrs : Ctrs := fun _ => { inputEdgesNumber := 1 }

/-- Witness for C3: running the all-false-selector state yields `False`
plus a non-empty error marker. -/
theorem graphLoop_selector_exhaustion_witness :
    ∃ msg, graphLoop 2 c3Graph (some "b") none c3Ctrs [] =
        .ok (false, assocSet [] "__EXCEPTION__" (Val.str msg)) ∧ msg ≠ "" :=
  graphLoop_selector_exhaustion 0 c3Graph "b" c3Ctrs [] c3State 0 rfl rfl rfl
    (by decide) rfl (Or.inr rfl)

/-! ## C2: a missing mandatory key is NOT caught -/

/-- A ready state with a single selected transfer hands the policy exactly
that transfer (no implicit-parallelization info outside parallel regions). -/
theorem stateRun_ok_single_transfer
    (fuel : Nat) (g : Graph) (sid : String) (ctrs : Ctrs) (data : Dict) (s : State)
    (n : Int) (t : Transfer)
    (hs : lookupState g sid = some s) (hproxy : s.proxyState = none)
    (hact : (ctrs sid).activated = .scalar n)
    (hready : n + 1 = (ctrs sid).inputEdgesNumber - (ctrs sid).loopedEdgesNumber)
    (hne : s.transfers.isEmpty = false)
    (hsel : selectTransfersGo s.transfers data [] 0 (s.selector data) = .ok [t]) :
    ∃ ctrs2, stateRun (fuel + 1) g sid ctrs data none =
      .ok (some (.morph ⟨[t], s.arrayKeysMapping, none, s.name⟩), none, ctrs2) := by
  have hbeq : ((n + 1 : Int) == (ctrs sid).inputEdgesNumber - (ctrs sid).loopedEdgesNumber)
      = true := by simpa using hready
  obtain ⟨c2, hc2⟩ := resetActivity_scalar_isOk s
    { ctrs sid with activated := .scalar (n + 1) } (n + 1) rfl
  cases hE : s.selector data with
  | nil => rw [hE] at hsel; simp [selectTransfersGo] at hsel
  | cons b bs =>
      rw [hE] at hsel
      refine ⟨updateCtr ctrs sid c2, ?_⟩
      simp [stateRun, hs, hproxy, activateInputEdge, hact, readyToTransfer, bind,
        Except.bind, hbeq, hc2, hne, hE, hsel, buildDKM]

/-- **C2 (amended).** When the run reaches a state whose single selected
transfer carries a mandatory key that is absent from the mapped data, the
bare `KeyError` raised by `Edge._throw_if_not_set` inside the transfer
application is not caught anywhere: it propagates out of `Graph.run`, the
error marker is not written and no `False` result is produced. -/
theorem graphLoop_mandatory_key_propagates
    (fuel : Nat) (g : Graph) (sid : String) (ctrs : Ctrs) (data : Dict) (s : State)
    (n : Int) (t : Transfer)
    (hs : lookupState g sid = some s) (hproxy : s.proxyState = none)
    (hact : (ctrs sid).activated = .scalar n)
    (hready : n + 1 = (ctrs sid).inputEdgesNumber - (ctrs sid).loopedEdgesNumber)
    (hne : s.transfers.isEmpty = false)
    (hsel : selectTransfersGo s.transfers data [] 0 (s.selector data) = .ok [t])
    (hakm : s.arrayKeysMapping = none)
    (hnomark : assocContains data "__EXCEPTION__" = false)
    (hmand : (t.edge.mandatoryKeys.all (fun k => proxyContainsKey t.edge.io [] data k))
      = false) :
    graphLoop (fuel + 4) g (some sid) none ctrs data = .error .keyError := by
  obtain ⟨ctrs2, hrun⟩ := stateRun_ok_single_transfer (fuel + 2) g sid ctrs data s n t
    hs hproxy hact hready hne hsel
  simp [graphLoop, runStateCaught, hrun, bind, Except.bind, Except.map, hnomark,
    applyContF, step, hakm, buildDKM, requiresJoint, edgeMorph, hmand]

/-- An edge whose transform may only run once the mandatory key `"k"` is
present. -/
def c2Edge : Edge := { pred := fun _ => true, morphf := fun d => d, mandatoryKeys := ["k"] }

def c2State : State := { name := "b", transfers := [{ edge := c2Edge, outputState := "e" }] }

def c2Graph : Graph :=
  { states := [("b", c2State), ("e", { name := "e", isTermState := true })],
    initState := "b" }

def c2Ctrs : Ctrs := fun _ => { inputEdgesNumber := 1 }

/-- C2 counterexample: running the compiled two-state graph on a record
without the mandatory key `"k"` makes `Graph.run` raise the uncaught
`KeyError` instead of returning `False` with an error marker — refuting
the claimed catch-at-the-step-boundary behavior for mandatory-key
failures. -/
theorem graphRun_mandatory_key_uncaught :
    graphRun 30 c2Graph [] "/cwd" = .error .keyError := by rfl

/-- Witness for C2 (amended): the same condition exercised through the main
loop at concrete inputs propagates the `KeyError`. -/
theorem graphLoop_mandatory_key_propagates_witness :
    graphLoop 4 c2Graph (some "b") none c2Ctrs [] = .error .keyError :=
  graphLoop_mandatory_key_propagates 0 c2Graph "b" c2Ctrs [] c2State 0
    { edge := c2Edge, outputState := "e" } rfl rfl rfl (by decide) rfl rfl rfl rfl rfl

/-! ## C4: the loop-detection rule of the INIT idle pass -/

/-- **C4 (amended).** When the INIT pass revisits a state (its incremented
input-edge count differs from 1), `looped_edges_number` is incremented
exactly when the *previously recorded* history is a subset of the *current*
path's history (`set(recorded).issubset(current)`), and the traversal does
not descend past the state. -/
theorem idleRun_loop_detection
    (fuel : Nat) (g : Graph) (sid : String) (hist rec : List String)
    (rest : List (String × List String)) (ctrs : Ctrs) (s : State)
    (hs : lookupState g sid = some s) (hproxy : s.proxyState = none)
    (hvisited : (ctrs sid).inputEdgesNumber + 1 ≠ 1)
    (hrec : (ctrs sid).branchingStatesHistory = some rec) :
    idleRun (fuel + 1) g .init ((sid, hist) :: rest) ctrs =
      idleRun fuel g .init rest
        (updateCtr ctrs sid
          { ctrs sid with
            inputEdgesNumber := (ctrs sid).inputEdgesNumber + 1,
            loopedEdgesNumber := (ctrs sid).loopedEdgesNumber +
              (if subsetB rec hist then 1 else 0) }) := by
  have hbeq : (((ctrs sid).inputEdgesNumber + 1 : Int) == 1) = false := by
    simpa using hvisited
  by_cases hsub : subsetB rec hist
  · simp [idleRun, hs, hproxy, hbeq, isLoopedBranch, hrec, hsub]
  · simp [idleRun, hs, hproxy, hbeq, isLoopedBranch, hrec, hsub]

def c4StateA : State := { name := "a", transfers := [{ edge := c1Edge, outputState := "x" }] }

def c4StateX : State :=
  { name := "x", transfers := [{ edge := c1Edge, outputState := "y" },
                               { edge := c1Edge, outputState := "z" }],
    selector := selectorAllTrue 2 }

def c4StateY : State := { name := "y", transfers := [{ edge := c1Edge, outputState := "x" }] }

def c4StateZ : State := { name := "z" }

/-- A looping graph: `a → x`, `x → y`, `x → z`, `y → x`. -/
def c4Graph : Graph :=
  { states := [("a", c4StateA), ("x", c4StateX), ("y", c4StateY), ("z", c4StateZ)],
    initState := "a" }

/-- The counters right before the INIT pass revisits `x` along the path
`a → x → y → x`: `x` was first seen with history `["a"]`. -/
def c4Pre : Ctrs := fun sid =>
  if sid == "x" then { inputEdgesNumber := 1, branchingStatesHistory := some ["a"] }
  else {}

/-- C4 counterexample: in the INIT pass of `c4Graph` started at `a`, state
`x` ends with `looped_edges_number = 1` — the increment fires at the
revisit of `x` along `a → x → y → x`, whose current history `["a", "y"]`
is *not* a subset of the recorded history `["a"]` (so the claim's
subset direction is wrong); the recorded history `["a"]` *is* a subset of
the current one, which is the code's actual test.  The third conjunct
replays exactly that revisit from the pre-state counters. -/
theorem idleRun_loop_detection_cex :
    ((idleRun 20 c4Graph .init [("a", ["a"])] initialCtrs) "x").loopedEdgesNumber = 1 ∧
    subsetB ["a", "y"] ["a"] = false ∧
    ((idleRun 20 c4Graph .init [("a", ["a"])] initialCtrs) "x").branchingStatesHistory
      = some ["a"] ∧
    ((idleRun 1 c4Graph .init [("x", ["a", "y"])] c4Pre) "x").loopedEdgesNumber = 1 := by
  refine ⟨by decide, by decide, by decide, by decide⟩

/-- Witness for C4 (amended): the revisit of `x` with current history
`["a", "y"]` and recorded history `["a"]` increments the loop count by the
code's recorded-subset-of-current test. -/
theorem idleRun_loop_detection_witness :
    ((c4Pre "x").inputEdgesNumber + 1 ≠ 1) ∧
    idleRun 1 c4Graph .init [("x", ["a", "y"])] c4Pre =
      idleRun 0 c4Graph .init []
        (updateCtr c4Pre "x"
          { c4Pre "x" with
            inputEdgesNumber := (c4Pre "x").inputEdgesNumber + 1,
            loopedEdgesNumber := (c4Pre "x").loopedEdgesNumber +
              (if subsetB ["a"] ["a", "y"] then 1 else 0) }) := by
  refine ⟨by decide, ?_⟩
  exact idleRun_loop_detection 0 c4Graph "x" ["a", "y"] ["a"] [] c4Pre c4StateX
    rfl rfl (by decide) rfl

/-! ## C5: implicit parallelization fan-out -/

/-- **C5.** With an array-key mapping present, applying the transfer
function with more than one selected transition raises the distinguished
`BadGraphStructure` error; with exactly one selected transition the policy
fans it out into one branch per element of the mapped array: the branch
count is the mapped array's length at evaluation time, with one
`ImplicitParallelizationInfo` per branch index, and the run proceeds by
driving exactly those branches. -/
theorem morph_implicit_parallelization
    (fuel : Nat) (g : Graph) (spec : MorphSpec) (ctrs : Ctrs) (data : Dict)
    (akm : List (String × List String)) (hakm : spec.arrayKeysMapping = some akm) :
    (2 ≤ spec.transfers.length →
      step (fuel + 1) g (.cont (.morph spec) ctrs data) =
        .error (.badGraphStructure
          ("Impossible to create implicit paralleilzation in the state with " ++
            toString spec.transfers.length ++ " output edges")))
    ∧ (∀ t n, spec.transfers = [t] → branchCount akm data = .ok n →
        morphFanOut t akm data = .ok
          ((List.range n).map (fun i => Cont.transfer t (buildDKM (some (IPI.mk akm n i)))),
           (List.range n).map (fun i => some (IPI.mk akm n i))) ∧
        ((List.range n).map
          (fun i => Cont.transfer t (buildDKM (some (IPI.mk akm n i))))).length = n ∧
        step (fuel + 1) g (.cont (.morph spec) ctrs data) =
          step fuel g (.drive (some akm) spec.stateName
            ((List.range n).map (fun i => Cont.transfer t (buildDKM (some (IPI.mk akm n i)))))
            ((List.range n).map (fun i => some (IPI.mk akm n i))) ctrs data)) := by
  constructor
  · intro hlen
    cases hT : spec.transfers with
    | nil => rw [hT] at hlen; simp at hlen
    | cons t1 l =>
        cases l with
        | nil => rw [hT] at hlen; simp at hlen
        | cons t2 l2 => simp [step, hakm, hT]
  · intro t n hT hbc
    refine ⟨by simp [morphFanOut, hbc, bind, Except.bind], by simp, ?_⟩
    simp [step, hakm, hT, morphFanOut, hbc, bind, Except.bind]

def c5T : Transfer := { edge := c1Edge, outputState := "e" }

/-- A single-transfer morph closure under the array-key mapping
`{"w": ("ws",)}`. -/
def c5Spec1 : MorphSpec :=
  { transfers := [c5T], arrayKeysMapping := some [("w", ["ws"])], ipi := none,
    stateName := "s" }

/-- A two-transfer morph closure under the same array-key mapping. -/
def c5Spec2 : MorphSpec :=
  { transfers := [c5T, c5T], arrayKeysMapping := some [("w", ["ws"])], ipi := none,
    stateName := "s" }

def c5Data : Dict := [("ws", Val.arr [Val.int 1, Val.int 2, Val.int 3])]

/-- Witness for C5: two selected transfers raise `BadGraphStructure`; one
selected transfer over a three-element array fans out into three branches. -/
theorem morph_implicit_parallelization_witness :
    (2 ≤ c5Spec2.transfers.length) ∧
    step 1 c1Graph (.cont (.morph c5Spec2) initialCtrs c5Data) =
      .error (.badGraphStructure
        ("Impossible to create implicit paralleilzation in the state with " ++
          toString c5Spec2.transfers.length ++ " output edges")) ∧
    branchCount [("w", ["ws"])] c5Data = .ok 3 ∧
    morphFanOut c5T [("w", ["ws"])] c5Data = .ok
      ((List.range 3).map (fun i => Cont.transfer c5T (buildDKM (some (IPI.mk [("w", ["ws"])] 3 i)))),
       (List.range 3).map (fun i => some (IPI.mk [("w", ["ws"])] 3 i))) ∧
    ((List.range 3).map
      (fun i => Cont.transfer c5T (buildDKM (some (IPI.mk [("w", ["ws"])] 3 i))))).length = 3 := by
  have h2 := morph_implicit_parallelization 0 c1Graph c5Spec2 initialCtrs c5Data
    [("w", ["ws"])] rfl
  have h1 := morph_implicit_parallelization 0 c1Graph c5Spec1 initialCtrs c5Data
    [("w", ["ws"])] rfl
  have hb := (h1.2 c5T 3 rfl rfl)
  exact ⟨by decide, h2.1 (by decide), rfl, hb.1, hb.2.1⟩

/-! ## C6: the edge-separator distinction is not tracked -/

def c6Fact : GraphFact := { name := "test" }

/-- **C6.** Evaluating the topology compiler at a document with the two
lines `A->B` and `A=>C` (no explicit `order` property): both resulting
transitions from `A` carry `order = 0` and identical default edges — the
captured separator token is never consulted, so the parsed `=>` edge does
*not* receive `order = 1` as the spec (and the repository's own unit test
`test_edge_types`) asserts. -/
theorem topology_separator_not_tracked :
    (do
      let f1 ← topology "A->B" c6Fact
      let f2 ← topology "A=>C" f1
      pure ((lookupPState f2.states "A").map (fun s => s.transfers))
     : Except String (Option (List PTransfer))) =
      .ok (some [{ edge := {}, target := "B" }, { edge := {}, target := "C" }]) := by rfl

/-! ## C7: the relative-path retry of upload vs download edges -/

/-- A communication layer whose copies always fail. -/
def c7FailComm : Comm :=
  { copy := fun _ _ _ => .error "no such file", listdir := fun _ => .ok [] }

def c7Data : Dict :=
  [("__WORKING_DIR__", Val.str "/wd"), ("__REMOTE_WORKING_DIR__", Val.str "/rwd"),
   ("f", Val.str "out.txt")]

/-- C7 counterexample: a download edge whose copy raises a communication
failure does NOT retry with a re-interpreted path — the failure propagates
as fatal (there is no try/except in `DownloadFromRemoteEdge.execute`),
refuting the claim for download edges. -/
theorem downloadExecute_failure_fatal :
    downloadExecute c7FailComm true ["f"] c7Data = .error (.commError "no such file") := by
  rfl

/-- **C7 (amended).** Upload edges retry a failed copy exactly once,
re-interpreting the path as relative to the working directory: the result
is the retry's result and a second failure propagates (no further retry).
Download edges never retry: a communication failure of the copy propagates
immediately. -/
theorem upload_retries_once_download_fatal
    (comm : Comm) (updatePaths : Bool) (k p wd rwd : String) (d : Dict) (e1 : String)
    (hk : assocGet d k = some (.str p))
    (hwd : assocGet d "__WORKING_DIR__" = some (.str wd))
    (hrwd : assocGet d "__REMOTE_WORKING_DIR__" = some (.str rwd))
    (hfail : comm.copy p rwd .fromLocal = .error e1) :
    (uploadExecute comm none updatePaths [k] d =
      match comm.copy (pathJoin wd p) rwd .fromLocal with
      | .ok rp => .ok (if updatePaths then assocSet d k (.str rp) else d)
      | .error m => .error (.commError m))
    ∧ (∀ m, comm.copy (rwd ++ "/" ++ p) wd .fromRemote = .error m → (p == "*") = false →
        downloadExecute comm updatePaths [k] d = .error (.commError m)) := by
  constructor
  · cases hretry : comm.copy (pathJoin wd p) rwd .fromLocal with
    | ok rp =>
        simp [uploadExecute, getStr, hrwd, hk, hwd, uploadGo, hfail, hretry, bind,
          Except.bind]
    | error m =>
        simp [uploadExecute, getStr, hrwd, hk, hwd, uploadGo, hfail, hretry, bind,
          Except.bind]
  · intro m hdl hstar
    simp [downloadExecute, getStr, hwd, hrwd, downloadGo, hk, hstar, downloadFiles,
      hdl, bind, Except.bind]

/-- A communication layer for which the absolute-path upload fails, the
working-directory-relative retry succeeds, and every download fails. -/
def c7Comm : Comm :=
  { copy := fun src _ mode =>
      match mode with
      | .fromLocal =>
          if src == "/wd/rel.txt" then .ok "/rwd/rel.txt" else .error "absolute failed"
      | .fromRemote => .error "download failed",
    listdir := fun _ => .ok [] }

def c7WData : Dict :=
  [("__WORKING_DIR__", Val.str "/wd"), ("__REMOTE_WORKING_DIR__", Val.str "/rwd"),
   ("f", Val.str "rel.txt")]

/-- Witness for C7 (amended): the upload's single retry with the
working-directory-relative path succeeds and is written back; the download
with the same communication layer fails fatally. -/
theorem upload_retries_once_download_fatal_witness :
    uploadExecute c7Comm none true ["f"] c7WData =
      .ok (assocSet c7WData "f" (.str "/rwd/rel.txt")) ∧
    downloadExecute c7Comm true ["f"] c7WData = .error (.commError "download failed") := by
  have h := upload_retries_once_download_fatal c7Comm true "f" "rel.txt" "/wd" "/rwd"
    c7WData "absolute failed" rfl rfl rfl rfl
  exact ⟨h.1.trans rfl, h.2 "download failed" rfl rfl⟩

end Comsdk
